import Mathlib

/-
Shallow embedding of the dtromb/log event-dispatch core (log.go, listener.go).
Go maps are modelled as association lists with at most one entry per key,
maintained by the upsert and delete operations exactly as the source performs
them (delete-then-insert).  Listener identity is modelled by a numeric id.
Time stamps, the printf formatter and the runtime stack walker are effects of
the host language; they enter the model as explicit parameters of dispatch.
-/

namespace GoLog

/-- LogLevel is a Go uint8 enumeration; the numeric order of the iota
constants in log.go is what the dispatch comparisons use. -/
abbrev LogLevel := Nat

def LogLevel.All : LogLevel := 0
def LogLevel.FatalError : LogLevel := 1
def LogLevel.Error : LogLevel := 2
def LogLevel.Error2 : LogLevel := 3
def LogLevel.Error3 : LogLevel := 4
def LogLevel.Warning : LogLevel := 5
def LogLevel.Warning2 : LogLevel := 6
def LogLevel.Warning3 : LogLevel := 7
def LogLevel.Info : LogLevel := 8
def LogLevel.Info2 : LogLevel := 9
def LogLevel.Info3 : LogLevel := 10
def LogLevel.Debug : LogLevel := 11
def LogLevel.Debug2 : LogLevel := 12
def LogLevel.Debug3 : LogLevel := 13
def LogLevel.Debug4 : LogLevel := 14
def LogLevel.Debug5 : LogLevel := 15
def LogLevel.Trace : LogLevel := 16
def LogLevel.None : LogLevel := 17
def LogLevel.Default : LogLevel := 18

/-- Listener identity: the Go code keys registration maps on the LogListener
interface value; we model identity by a numeric id. -/
abbrev ListenerId := Nat

/-- A Go error value: identity plus the text its Error method returns. -/
structure GoError where
  id : Nat
  msg : String
deriving DecidableEq, Repr

/-- The text of the error, as the Error method of the Go error interface. -/
def GoError.Error (e : GoError) : String := e.msg

/-- One frame of a captured stack trace (part of the StackTraceEntry type;
the runtime walk itself is not modelled, dispatch receives the frames). -/
structure StackTraceEntry where
  pc : Nat
  file : String
  line : Nat
deriving DecidableEq, Repr

/-- stdLogStream state: name, per-stream defaults, local listener map,
trace-by-default and active flags.  The ctx back-pointer of the Go struct is
passed explicitly to the operations instead. -/
structure StreamState where
  name : String
  defaultLevel : LogLevel
  defaultListenerLevel : LogLevel
  listeners : List (ListenerId × LogLevel)
  traces : Bool
  active : Bool
deriving DecidableEq, Repr

/-- stdLoggingContext state: debugging flag, stream registry, context-wide
defaults, global listener map, trace-by-default flag. -/
structure ContextState where
  debugging : Bool
  streams : List (String × StreamState)
  defaultLogLevel : LogLevel
  defaultListenerLevel : LogLevel
  listeners : List (ListenerId × LogLevel)
  traces : Bool
deriving DecidableEq, Repr

/-- stdLogEntry: the Go struct stores a pointer to the stream and exposes
only its name through the Stream accessor, so the model stores the name. -/
structure LogEntry where
  ts : Nat
  stream : String
  level : LogLevel
  message : String
  associatedError : Option GoError
  stackTrace : Option (List StackTraceEntry)
deriving DecidableEq, Repr

def LogEntry.Message (e : LogEntry) : String := e.message

def LogEntry.Level (e : LogEntry) : LogLevel := e.level

def LogEntry.HasAssociatedError (e : LogEntry) : Bool := e.associatedError.isSome

def LogEntry.AssociatedError (e : LogEntry) : Option GoError := e.associatedError

def LogEntry.HasTrace (e : LogEntry) : Bool := e.stackTrace.isSome

/-- CreateLoggingContext from log.go: only streams, defaultLogLevel and
listeners are set in the composite literal; the remaining Go fields take
their zero values (false, and level 0 which is All). -/
def CreateLoggingContext : ContextState :=
  { debugging := false
    streams := []
    defaultLogLevel := LogLevel.Info
    defaultListenerLevel := LogLevel.All
    listeners := []
    traces := false }

/-- stdLoggingContext.HasStream: membership test on the stream registry. -/
def ContextState.HasStream (ctx : ContextState) (key : String) : Bool :=
  (ctx.streams.lookup key).isSome

/-- stdLoggingContext.Stream: returns the registered stream with
created = false, or builds a fresh stream with Default levels and an empty
listener map and returns it with created = true.  The source returns the
fresh stream without ever writing it into ctx.streams, so the context is
returned unchanged in both branches, exactly as the code leaves it. -/
def ContextState.Stream (ctx : ContextState) (key : String) :
    (StreamState × Bool) × ContextState :=
  match ctx.streams.lookup key with
  | some s => ((s, false), ctx)
  | none =>
    let ns : StreamState :=
      { name := key
        defaultLevel := LogLevel.Default
        defaultListenerLevel := LogLevel.Default
        listeners := []
        traces := false
        active := true }
    ((ns, true), ctx)

/-- stdLoggingContext.EnableDebugging. -/
def ContextState.EnableDebugging (ctx : ContextState) (val : Bool) : ContextState :=
  { ctx with debugging := val }

/-- stdLoggingContext.SetDefaultLogListenerLevel. -/
def ContextState.SetDefaultLogListenerLevel (ctx : ContextState) (level : LogLevel) :
    ContextState :=
  { ctx with defaultListenerLevel := level }

/-- stdLoggingContext.SetTracesByDefault. -/
def ContextState.SetTracesByDefault (ctx : ContextState) (traces : Bool) : ContextState :=
  { ctx with traces := traces }

/-- stdLoggingContext.AddGlobalLogListener: Go performs delete then insert on
the map, so the association list drops every entry for the key and appends
one entry with the new level. -/
def ContextState.AddGlobalLogListener (ctx : ContextState) (ll : ListenerId)
    (level : LogLevel) : ContextState :=
  { ctx with listeners := (ctx.listeners.filter (fun p => p.1 != ll)) ++ [(ll, level)] }

/-- stdLoggingContext.RemoveGlobalLogListener: delete on the map. -/
def ContextState.RemoveGlobalLogListener (ctx : ContextState) (ll : ListenerId) :
    ContextState :=
  { ctx with listeners := ctx.listeners.filter (fun p => p.1 != ll) }

/-- stdLogStream.AddLogListener: delete then insert on the local map. -/
def StreamState.AddLogListener (ls : StreamState) (ll : ListenerId)
    (level : LogLevel) : StreamState :=
  { ls with listeners := (ls.listeners.filter (fun p => p.1 != ll)) ++ [(ll, level)] }

/-- stdLogStream.RemoveLogListener. -/
def StreamState.RemoveLogListener (ls : StreamState) (ll : ListenerId) : StreamState :=
  { ls with listeners := ls.listeners.filter (fun p => p.1 != ll) }

/-- stdLogStream.SetDefaultLogListenerLevel. -/
def StreamState.SetDefaultLogListenerLevel (ls : StreamState) (level : LogLevel) :
    StreamState :=
  { ls with defaultListenerLevel := level }

/-- stdLogStream.SetTracesByDefault. -/
def StreamState.SetTracesByDefault (ls : StreamState) (traces : Bool) : StreamState :=
  { ls with traces := traces }

/-- The per-listener interest test of stdLogStream.dispatchLog, line 413 and
line 420 of log.go: lv >= level, or lv == Default and the context default
listener level <= level, or level == All. -/
def interested (lv level ctxDefaultListenerLevel : LogLevel) : Bool :=
  decide (lv ≥ level)
    || (lv == LogLevel.Default && decide (ctxDefaultListenerLevel ≤ level))
    || level == LogLevel.All

/-- The interest slice built by dispatchLog: the stream-local registrations
that pass the test, followed by the context-global registrations that pass
the same test. -/
def interestOf (ls : StreamState) (ctx : ContextState) (level : LogLevel) :
    List ListenerId :=
  (ls.listeners.filter
      (fun p => interested p.2 level ctx.defaultListenerLevel)).map Prod.fst
    ++ (ctx.listeners.filter
      (fun p => interested p.2 level ctx.defaultListenerLevel)).map Prod.fst

/-- stdLogStream.dispatchLog: compute interest first; if nobody is
interested return with no deliveries; otherwise format the message (only
when args are present), build the entry (trace captured when the stream
flag, the context flag or the per-call flag asks for it; associated error
attached when present) and deliver it to each interested listener.  The
result is the list of (listener, entry) deliveries in invocation order;
sprintf models fmt.Sprintf, ts models time.Now, genTrace models the frames
generateStackTrace would return. -/
def StreamState.dispatchLog {α : Type} (ls : StreamState) (ctx : ContextState)
    (sprintf : String → List α → String) (ts : Nat)
    (genTrace : List StackTraceEntry) (level : LogLevel) (generateTrace : Bool)
    (setError : Option GoError) (format : String) (args : List α) :
    List (ListenerId × LogEntry) :=
  if (interestOf ls ctx level).length > 0 then
    (interestOf ls ctx level).map (fun ll =>
      (ll,
        { ts := ts
          stream := ls.name
          level := level
          message := if args.length > 0 then sprintf format args else format
          associatedError := setError
          stackTrace :=
            if ls.traces || ctx.traces || generateTrace then some genTrace
            else none }))
  else []

/-- Delivery loop of dispatchLog: each interested listener Receive call is
made in order with no recovery, so a failing Receive stops the loop and the
failure escapes to the caller.  recv returns true when the Receive call
returns normally; the result is the list of listeners actually invoked and
whether the loop completed without an escaping failure. -/
def runListeners (recv : ListenerId → LogEntry → Bool) :
    List (ListenerId × LogEntry) → List ListenerId × Bool
  | [] => ([], true)
  | (ll, e) :: rest =>
    if recv ll e then
      let r := runListeners recv rest
      (ll :: r.1, r.2)
    else ([ll], false)

/-- Entries delivered to one listener, in delivery order. -/
def deliveredTo (ll : ListenerId) (evs : List (ListenerId × LogEntry)) :
    List LogEntry :=
  (evs.filter (fun p => p.1 == ll)).map Prod.snd

/-- Number of deliveries made to one listener. -/
def countDeliveries (ll : ListenerId) (evs : List (ListenerId × LogEntry)) : Nat :=
  (evs.map Prod.fst).count ll

/-- Empty printf argument list for the calls that pass a plain message. -/
def noArgs : List Unit := []

/-- Identity formatter used by the no-argument shortcuts: with an empty
argument list dispatchLog never consults it. -/
def plainFormat : String → List Unit → String := fun f _ => f

/-- stdLogStream.Info. -/
def StreamState.Info (ls : StreamState) (ctx : ContextState) (ts : Nat)
    (genTrace : List StackTraceEntry) (msg : String) : List (ListenerId × LogEntry) :=
  ls.dispatchLog ctx plainFormat ts genTrace LogLevel.Info false none msg noArgs

/-- stdLogStream.Warning. -/
def StreamState.Warning (ls : StreamState) (ctx : ContextState) (ts : Nat)
    (genTrace : List StackTraceEntry) (msg : String) : List (ListenerId × LogEntry) :=
  ls.dispatchLog ctx plainFormat ts genTrace LogLevel.Warning false none msg noArgs

/-- stdLogStream.Error: dispatches at level Error with the error attached
and the error text as the message (no printf arguments). -/
def StreamState.Error (ls : StreamState) (ctx : ContextState) (ts : Nat)
    (genTrace : List StackTraceEntry) (err : GoError) : List (ListenerId × LogEntry) :=
  ls.dispatchLog ctx plainFormat ts genTrace LogLevel.Error false (some err)
    err.Error noArgs

/-- stdLogStream.Errorf: dispatches at level Error with the error attached
and the caller-supplied format and arguments as the message. -/
def StreamState.Errorf {α : Type} (ls : StreamState) (ctx : ContextState)
    (sprintf : String → List α → String) (ts : Nat)
    (genTrace : List StackTraceEntry) (err : GoError) (format : String)
    (args : List α) : List (ListenerId × LogEntry) :=
  ls.dispatchLog ctx sprintf ts genTrace LogLevel.Error false (some err) format args

/-- stdLogStream.Debug: gated on the context debugging flag; a complete
no-op when debugging is disabled. -/
def StreamState.Debug (ls : StreamState) (ctx : ContextState) (ts : Nat)
    (genTrace : List StackTraceEntry) (msg : String) : List (ListenerId × LogEntry) :=
  if ctx.debugging then
    ls.dispatchLog ctx plainFormat ts genTrace LogLevel.Debug false none msg noArgs
  else []

/-- stdLogStream.Trace: gated on the context debugging flag and always
requests trace capture. -/
def StreamState.Trace (ls : StreamState) (ctx : ContextState) (ts : Nat)
    (genTrace : List StackTraceEntry) (msg : String) : List (ListenerId × LogEntry) :=
  if ctx.debugging then
    ls.dispatchLog ctx plainFormat ts genTrace LogLevel.Trace true none msg noArgs
  else []

/-- The three-clause interest rule as the specification states it: the
threshold is at least the event level numerically, or the threshold is
Default and the context default listener level is at most the event level,
or the event level is All. -/
def specInterestRule (T L d : LogLevel) : Bool :=
  decide (T ≥ L) || (T == LogLevel.Default && decide (d ≤ L)) || L == LogLevel.All

theorem interested_eq_spec (T L d : LogLevel) :
    interested T L d = specInterestRule T L d := rfl

theorem dispatch_map_fst {α : Type} (ls : StreamState) (ctx : ContextState)
    (sprintf : String → List α → String) (ts : Nat)
    (genTrace : List StackTraceEntry) (level : LogLevel) (generateTrace : Bool)
    (setError : Option GoError) (format : String) (args : List α) :
    (ls.dispatchLog ctx sprintf ts genTrace level generateTrace setError
        format args).map Prod.fst = interestOf ls ctx level := by
  unfold StreamState.dispatchLog
  split
  · rw [List.map_map]
    exact List.map_id _
  · rename_i h
    have h0 : interestOf ls ctx level = [] :=
      List.eq_nil_of_length_eq_zero (Nat.eq_zero_of_not_pos h)
    rw [h0]
    rfl

theorem countDeliveries_dispatch {α : Type} (ls : StreamState) (ctx : ContextState)
    (sprintf : String → List α → String) (ts : Nat)
    (genTrace : List StackTraceEntry) (level : LogLevel) (generateTrace : Bool)
    (setError : Option GoError) (format : String) (args : List α)
    (ll : ListenerId) :
    countDeliveries ll (ls.dispatchLog ctx sprintf ts genTrace level
        generateTrace setError format args)
      = ls.listeners.countP
          (fun p => p.1 == ll && interested p.2 level ctx.defaultListenerLevel)
        + ctx.listeners.countP
          (fun p => p.1 == ll && interested p.2 level ctx.defaultListenerLevel) := by
  unfold countDeliveries
  rw [dispatch_map_fst]
  unfold interestOf
  rw [List.count_append, List.count_eq_countP, List.count_eq_countP,
    List.countP_map, List.countP_map, List.countP_filter, List.countP_filter]
  rfl


/-- Claim C2: dispatch selects a registration for delivery exactly when the
three-clause rule holds for its threshold and the event level; the rule is
applied independently to the stream-local and the context-global maps, and a
listener registered in both scopes is delivered once per registration: the
number of deliveries to a listener equals the number of its stream-local
registrations passing the rule plus the number of its context-global
registrations passing the rule. -/
theorem C2_dispatch_rule {α : Type} (sprintf : String → List α → String)
    (ts : Nat) (genTrace : List StackTraceEntry) (ls : StreamState)
    (ctx : ContextState) (level : LogLevel) (generateTrace : Bool)
    (setError : Option GoError) (format : String) (args : List α)
    (ll : ListenerId) :
    (∀ T L d : LogLevel, interested T L d = specInterestRule T L d) ∧
    countDeliveries ll (ls.dispatchLog ctx sprintf ts genTrace level
        generateTrace setError format args)
      = ls.listeners.countP
          (fun p => p.1 == ll && specInterestRule p.2 level ctx.defaultListenerLevel)
        + ctx.listeners.countP
          (fun p => p.1 == ll && specInterestRule p.2 level ctx.defaultListenerLevel) :=
  ⟨fun T L d => interested_eq_spec T L d,
   countDeliveries_dispatch ls ctx sprintf ts genTrace level generateTrace
     setError format args ll⟩

/-- Claim C10: dispatch never reads the stream default listener level; after
SetDefaultLogListenerLevel on the stream, with every other input unchanged,
the interest set and the delivered events are identical. -/
theorem C10_stream_listener_level_untouched {α : Type}
    (sprintf : String → List α → String) (ts : Nat)
    (genTrace : List StackTraceEntry) (ls : StreamState) (ctx : ContextState)
    (level : LogLevel) (generateTrace : Bool) (setError : Option GoError)
    (format : String) (args : List α) (x : LogLevel) :
    interestOf (ls.SetDefaultLogListenerLevel x) ctx level
        = interestOf ls ctx level
    ∧ (ls.SetDefaultLogListenerLevel x).dispatchLog ctx sprintf ts genTrace
          level generateTrace setError format args
        = ls.dispatchLog ctx sprintf ts genTrace level generateTrace setError
          format args :=
  ⟨rfl, rfl⟩

/-- Claim C4: with no stream-local and no context-global listener, dispatch
returns no deliveries, for every formatter and every candidate trace, so the
format function is never applied and no stack trace is captured. -/
theorem C4_short_circuit {α : Type} (sprintf : String → List α → String)
    (ts : Nat) (genTrace : List StackTraceEntry) (ls : StreamState)
    (ctx : ContextState) (level : LogLevel) (generateTrace : Bool)
    (setError : Option GoError) (format : String) (args : List α)
    (hls : ls.listeners = []) (hctx : ctx.listeners = []) :
    ls.dispatchLog ctx sprintf ts genTrace level generateTrace setError
      format args = [] := by
  unfold StreamState.dispatchLog
  have h0 : interestOf ls ctx level = [] := by
    unfold interestOf
    rw [hls, hctx]
    rfl
  rw [h0]
  rfl

/-- Witness for claim C4 at a concrete input: the fresh svc stream and a
fresh context carry no listeners, and a dispatch with a format string that
mismatches its arguments yields no deliveries. -/
theorem C4_short_circuit_witness :
    ((CreateLoggingContext.Stream "svc").1.1.listeners = []
        ∧ CreateLoggingContext.listeners = [])
    ∧ (CreateLoggingContext.Stream "svc").1.1.dispatchLog CreateLoggingContext
        (fun f (_ : List Unit) => f) 0 [] LogLevel.Info false none
        "bad format %d %s" [] = [] :=
  ⟨⟨rfl, rfl⟩,
   C4_short_circuit (fun f (_ : List Unit) => f) 0 []
     (CreateLoggingContext.Stream "svc").1.1 CreateLoggingContext
     LogLevel.Info false none "bad format %d %s" [] rfl rfl⟩

/-- Claim C1 evaluated at the failing input: after CreateLoggingContext, the
first Stream call for the name svc reports created = true, yet HasStream svc
is still false on the returned context and a second Stream call again
reports created = true, because the source never inserts the created stream
into the streams map. -/
theorem C1_stream_never_registered :
    ((CreateLoggingContext.Stream "svc").1.2 = true)
    ∧ ((CreateLoggingContext.Stream "svc").2.HasStream "svc" = false)
    ∧ (((CreateLoggingContext.Stream "svc").2.Stream "svc").1.2 = true) :=
  ⟨rfl, rfl, rfl⟩

/-- Setup of the end-to-end run of claim C3: a fresh context, the stream
svc, listener 1 registered locally at Warning, listener 2 registered
globally at All, then Info started followed by Warning disk low. -/
def c3base : (StreamState × Bool) × ContextState := CreateLoggingContext.Stream "svc"

def c3svc : StreamState := c3base.1.1.AddLogListener 1 LogLevel.Warning

def c3ctx : ContextState := c3base.2.AddGlobalLogListener 2 LogLevel.All

def c3deliveries : List (ListenerId × LogEntry) :=
  c3svc.Info c3ctx 0 [] "started" ++ c3svc.Warning c3ctx 1 [] "disk low"

/-- Variant of the run with the global listener registered at Trace instead
of All. -/
def c3ctxTrace : ContextState := c3base.2.AddGlobalLogListener 2 LogLevel.Trace

def c3deliveriesTrace : List (ListenerId × LogEntry) :=
  c3svc.Info c3ctxTrace 0 [] "started" ++ c3svc.Warning c3ctxTrace 1 [] "disk low"

/-- Claim C3 counterexample: in the exact run the claim describes, the
global listener registered at All receives no events at all, not the two
events the claim asserts. -/
theorem C3_counterexample :
    deliveredTo 2 c3deliveries = []
    ∧ (deliveredTo 2 c3deliveries).length ≠ 2 :=
  ⟨rfl, by decide⟩

/-- Claim C3 amended: in the run described, the local listener receives
exactly one event (level Warning, message disk low) as claimed, but the
global listener registered at All receives nothing, because threshold All
is numerically lowest and matches only events logged at level All; a global
listener registered at Trace instead receives both events in call order. -/
theorem C3_amended :
    deliveredTo 1 c3deliveries =
      [{ ts := 1, stream := "svc", level := LogLevel.Warning,
         message := "disk low", associatedError := none, stackTrace := none }]
    ∧ deliveredTo 2 c3deliveries = []
    ∧ deliveredTo 2 c3deliveriesTrace =
      [{ ts := 0, stream := "svc", level := LogLevel.Info,
         message := "started", associatedError := none, stackTrace := none },
       { ts := 1, stream := "svc", level := LogLevel.Warning,
         message := "disk low", associatedError := none, stackTrace := none }] :=
  ⟨rfl, rfl, rfl⟩


/-- Context of the claim C5 run with the global listener at threshold All
and debugging already enabled. -/
def c5ctxAll : ContextState :=
  (CreateLoggingContext.AddGlobalLogListener 2 LogLevel.All).EnableDebugging true

def c5svcAll : StreamState := (c5ctxAll.Stream "s").1.1

/-- Claim C5 counterexample: with debugging enabled and a listener
registered globally at All, Debug and Trace still deliver nothing, because
threshold All is numerically lowest and fails every clause of the interest
rule for the Debug and Trace event levels. -/
theorem C5_counterexample :
    c5ctxAll.debugging = true
    ∧ c5svcAll.Debug c5ctxAll 0 [] "x" = []
    ∧ c5svcAll.Trace c5ctxAll 0 [] "x" = [] :=
  ⟨rfl, rfl, rfl⟩

/-- Context of the amended claim C5 run: global listener 2 at threshold
Trace, debugging initially disabled, then enabled. -/
def c5ctxOff : ContextState := CreateLoggingContext.AddGlobalLogListener 2 LogLevel.Trace

def c5svc : StreamState := (c5ctxOff.Stream "s").1.1

def c5ctxOn : ContextState := c5ctxOff.EnableDebugging true

/-- Claim C5 amended: while the context debugging flag is false, Debug and
Trace on any stream are complete no-ops regardless of the registered
listeners; in the concrete run with a listener registered at Trace, the
calls deliver nothing before EnableDebugging true and deliver to that
listener afterwards.  A listener registered at All would still receive
nothing, since threshold All only matches events logged at level All. -/
theorem C5_debug_gating (ls : StreamState) (ctx : ContextState) (ts : Nat)
    (genTrace : List StackTraceEntry) (msg : String)
    (hdbg : ctx.debugging = false) :
    ls.Debug ctx ts genTrace msg = []
    ∧ ls.Trace ctx ts genTrace msg = []
    ∧ c5svc.Debug c5ctxOff 0 [] "x" = []
    ∧ c5svc.Trace c5ctxOff 0 [] "x" = []
    ∧ deliveredTo 2 (c5svc.Debug c5ctxOn 0 [] "x") =
        [{ ts := 0, stream := "s", level := LogLevel.Debug, message := "x",
           associatedError := none, stackTrace := none }]
    ∧ deliveredTo 2 (c5svc.Trace c5ctxOn 0 [] "x") =
        [{ ts := 0, stream := "s", level := LogLevel.Trace, message := "x",
           associatedError := none, stackTrace := some [] }] := by
  refine ⟨?_, ?_, rfl, rfl, rfl, rfl⟩
  · unfold StreamState.Debug
    rw [hdbg]
    rfl
  · unfold StreamState.Trace
    rw [hdbg]
    rfl

/-- Witness for claim C5 at a concrete input: a fresh context has debugging
disabled and the gated calls are no-ops there. -/
theorem C5_debug_gating_witness :
    CreateLoggingContext.debugging = false
    ∧ c5svc.Debug CreateLoggingContext 0 [] "x" = [] :=
  ⟨rfl, (C5_debug_gating c5svc CreateLoggingContext 0 [] "x" rfl).1⟩

/-- Context of the claim C6 run: listener 9 registered globally at None. -/
def c6ctx : ContextState := CreateLoggingContext.AddGlobalLogListener 9 LogLevel.None

def c6svc : StreamState := (c6ctx.Stream "s").1.1

/-- Claim C6 counterexample: a listener registered at threshold None does
receive the Warning event, it is not disabled. -/
theorem C6_counterexample :
    deliveredTo 9 (c6svc.Warning c6ctx 0 [] "w") =
      [{ ts := 0, stream := "s", level := LogLevel.Warning, message := "w",
         associatedError := none, stackTrace := none }] := rfl

/-- Claim C6 amended: a registration with threshold None is not disabled;
None is numerically above every named severity, so the first clause of the
interest rule holds and the listener is delivered the event for every
dispatch at a named severity level, at either scope. -/
theorem C6_none_threshold_matches (ts : Nat) (genTrace : List StackTraceEntry)
    (ls : StreamState) (ctx : ContextState) (level : LogLevel)
    (generateTrace : Bool) (setError : Option GoError) (format : String)
    (ll : ListenerId)
    (hreg : (ll, LogLevel.None) ∈ ls.listeners ∨ (ll, LogLevel.None) ∈ ctx.listeners)
    (hlo : LogLevel.FatalError ≤ level) (hhi : level ≤ LogLevel.Trace) :
    0 < countDeliveries ll (ls.dispatchLog ctx plainFormat ts genTrace level
        generateTrace setError format noArgs) := by
  rw [countDeliveries_dispatch]
  have hint : interested LogLevel.None level ctx.defaultListenerLevel = true := by
    unfold interested
    have h16 : level ≤ 16 := hhi
    have hle : level ≤ LogLevel.None := le_trans h16 (by decide)
    simp [ge_iff_le, hle]
  rcases hreg with h | h
  · have hpos : 0 < ls.listeners.countP
        (fun p => p.1 == ll && interested p.2 level ctx.defaultListenerLevel) := by
      rw [List.countP_pos_iff]
      exact ⟨(ll, LogLevel.None), h, by simp [hint]⟩
    exact Nat.add_pos_left hpos _
  · have hpos : 0 < ctx.listeners.countP
        (fun p => p.1 == ll && interested p.2 level ctx.defaultListenerLevel) := by
      rw [List.countP_pos_iff]
      exact ⟨(ll, LogLevel.None), h, by simp [hint]⟩
    exact Nat.add_pos_right _ hpos

/-- Witness for the amended claim C6 at a concrete input: listener 9 is
registered at None globally and the Warning dispatch delivers to it. -/
theorem C6_none_threshold_matches_witness :
    (((9 : ListenerId), LogLevel.None) ∈ c6svc.listeners
      ∨ ((9 : ListenerId), LogLevel.None) ∈ c6ctx.listeners)
    ∧ LogLevel.FatalError ≤ LogLevel.Warning
    ∧ LogLevel.Warning ≤ LogLevel.Trace
    ∧ 0 < countDeliveries 9 (c6svc.dispatchLog c6ctx plainFormat 0 []
        LogLevel.Warning false none "w" noArgs) :=
  ⟨Or.inr (by decide), by decide, by decide,
   C6_none_threshold_matches 0 [] c6svc c6ctx LogLevel.Warning false none "w" 9
     (Or.inr (by decide)) (by decide) (by decide)⟩

/-- Receive behavior in the run of claim C7: listener 1 fails on every
entry, every other listener returns normally. -/
def c7recv : ListenerId → LogEntry → Bool := fun ll _ => ll != 1

/-- The Warning entry produced in the run of claim C7. -/
def c7entry : LogEntry :=
  { ts := 0, stream := "s", level := LogLevel.Warning, message := "w",
    associatedError := none, stackTrace := none }

def c7ctx : ContextState := CreateLoggingContext.AddGlobalLogListener 2 LogLevel.Warning

def c7svc : StreamState := (c7ctx.Stream "s").1.1.AddLogListener 1 LogLevel.Warning

/-- Claim C7 counterexample: both listeners are interested in the Warning
event; the stream-local listener 1 is invoked first and fails, the loop
stops there, so the global listener 2 never receives the event and the
failure escapes to the dispatching caller. -/
theorem C7_counterexample :
    interestOf c7svc c7ctx LogLevel.Warning = [1, 2]
    ∧ runListeners c7recv (c7svc.Warning c7ctx 0 [] "w") = ([1], false) :=
  ⟨rfl, rfl⟩

/-- Claim C7 amended: the delivery loop installs no recovery; when every
listener before some failing listener succeeds, the invoked listeners are
exactly those up to and including the failing one, the failure escapes to
the caller, and every listener after the failing one receives nothing. -/
theorem C7_failure_propagates (recv : ListenerId → LogEntry → Bool)
    (pre post : List (ListenerId × LogEntry)) (ll : ListenerId) (e : LogEntry)
    (hpre : ∀ p ∈ pre, recv p.1 p.2 = true) (hfail : recv ll e = false) :
    runListeners recv (pre ++ (ll, e) :: post)
      = (pre.map Prod.fst ++ [ll], false) := by
  induction pre with
  | nil => simp [runListeners, hfail]
  | cons a rest ih =>
    have ha : recv a.1 a.2 = true := hpre a (by simp)
    have ih2 := ih (fun p hp => hpre p (by simp [hp]))
    cases a with
    | mk a1 a2 =>
      have hstep : rest.append ((ll, e) :: post) = rest ++ (ll, e) :: post := rfl
      simp only [List.cons_append, runListeners, ha, if_true, List.map_cons,
        hstep, ih2]

/-- Witness for the amended claim C7 at a concrete input: listener 2
succeeds first, listener 1 then fails, the invoked list is exactly both of
them and the failure escapes. -/
theorem C7_failure_propagates_witness :
    (∀ p ∈ [((2 : ListenerId), c7entry)], c7recv p.1 p.2 = true)
    ∧ c7recv 1 c7entry = false
    ∧ runListeners c7recv ([(2, c7entry)] ++ (1, c7entry) :: [])
      = ([2, 1], false) :=
  ⟨by decide, by decide,
   C7_failure_propagates c7recv [(2, c7entry)] [] 1 c7entry
     (by decide) (by decide)⟩

theorem upsert_countP_key (l : List (ListenerId × LogLevel)) (ll : ListenerId)
    (lvl : LogLevel) :
    ((l.filter (fun p => p.1 != ll)) ++ [(ll, lvl)]).countP
      (fun p => p.1 == ll) = 1 := by
  rw [List.countP_append, List.countP_filter]
  have h0 : l.countP (fun a => (a.1 == ll) && (a.1 != ll)) = 0 := by
    rw [List.countP_eq_zero]
    intro a _
    cases h : a.1 == ll <;> simp [bne, h]
  rw [h0]
  simp

theorem upsert_countP_pred (l : List (ListenerId × LogLevel)) (ll : ListenerId)
    (lvl : LogLevel) (q : LogLevel → Bool) (hq : q lvl = true) :
    ((l.filter (fun p => p.1 != ll)) ++ [(ll, lvl)]).countP
      (fun p => p.1 == ll && q p.2) = 1 := by
  rw [List.countP_append, List.countP_filter]
  have h0 : l.countP (fun a => ((a.1 == ll) && q a.2) && (a.1 != ll)) = 0 := by
    rw [List.countP_eq_zero]
    intro a _
    cases h : a.1 == ll <;> simp [bne, h]
  rw [h0]
  simp [hq]

theorem countP_conj_zero (l : List (ListenerId × LogLevel)) (ll : ListenerId)
    (q : LogLevel → Bool) (h : l.countP (fun p => p.1 == ll) = 0) :
    l.countP (fun p => p.1 == ll && q p.2) = 0 := by
  rw [List.countP_eq_zero] at h ⊢
  intro a ha
  have hk := h a ha
  simp only [Bool.not_eq_true] at hk
  simp [hk]

/-- The registration sequence of claim C8: AddGlobalLogListener with
Warning twice, then once with Info, for the same listener identity. -/
def c8After (ctx : ContextState) (L : ListenerId) : ContextState :=
  ((ctx.AddGlobalLogListener L LogLevel.Warning).AddGlobalLogListener L
    LogLevel.Warning).AddGlobalLogListener L LogLevel.Info

/-- Claim C8: AddGlobalLogListener is an idempotent upsert keyed on listener
identity: after adding L at Warning twice and then at Info, the global map
holds exactly one registration for L and it carries threshold Info; a
dispatch whose stream has no local registration for L then delivers one
event to L through the global scope whenever the Info threshold passes the
interest rule; and RemoveGlobalLogListener of an unregistered listener
leaves the context unchanged. -/
theorem C8_idempotent_upsert {α : Type} (sprintf : String → List α → String)
    (ts : Nat) (genTrace : List StackTraceEntry) (ctx ctx2 : ContextState)
    (ls : StreamState) (L : ListenerId) (level : LogLevel)
    (generateTrace : Bool) (setError : Option GoError) (format : String)
    (args : List α)
    (hlocal : ls.listeners.countP (fun p => p.1 == L) = 0)
    (hrule : interested LogLevel.Info level ctx.defaultListenerLevel = true)
    (habsent : ctx2.listeners.countP (fun p => p.1 == L) = 0) :
    (c8After ctx L).listeners.countP (fun p => p.1 == L) = 1
    ∧ (L, LogLevel.Info) ∈ (c8After ctx L).listeners
    ∧ countDeliveries L (ls.dispatchLog (c8After ctx L) sprintf ts genTrace
        level generateTrace setError format args) = 1
    ∧ ctx2.RemoveGlobalLogListener L = ctx2 := by
  refine ⟨?_, ?_, ?_, ?_⟩
  · exact upsert_countP_key
      ((ctx.AddGlobalLogListener L LogLevel.Warning).AddGlobalLogListener L
        LogLevel.Warning).listeners L LogLevel.Info
  · exact List.mem_append_right _ (by simp)
  · rw [countDeliveries_dispatch]
    have hg : (c8After ctx L).listeners.countP
        (fun p => p.1 == L && interested p.2 level
          (c8After ctx L).defaultListenerLevel) = 1 :=
      upsert_countP_pred
        ((ctx.AddGlobalLogListener L LogLevel.Warning).AddGlobalLogListener L
          LogLevel.Warning).listeners L LogLevel.Info
        (fun v => interested v level (c8After ctx L).defaultListenerLevel) hrule
    have hl : ls.listeners.countP
        (fun p => p.1 == L && interested p.2 level
          (c8After ctx L).defaultListenerLevel) = 0 :=
      countP_conj_zero ls.listeners L
        (fun v => interested v level (c8After ctx L).defaultListenerLevel) hlocal
    rw [hl, hg]
  · have hf : ctx2.listeners.filter (fun p => p.1 != L) = ctx2.listeners := by
      rw [List.filter_eq_self]
      intro a ha
      have hk := (List.countP_eq_zero.mp habsent) a ha
      simp only [Bool.not_eq_true] at hk
      simp [bne, hk]
    unfold ContextState.RemoveGlobalLogListener
    rw [hf]

/-- Witness for claim C8 at a concrete input: listener 5 on a fresh context
and a fresh stream, with an Info event, which the Info threshold matches. -/
theorem C8_idempotent_upsert_witness :
    ((CreateLoggingContext.Stream "s").1.1.listeners.countP
        (fun p => p.1 == (5 : ListenerId)) = 0
      ∧ interested LogLevel.Info LogLevel.Info
          CreateLoggingContext.defaultListenerLevel = true
      ∧ CreateLoggingContext.listeners.countP
          (fun p => p.1 == (5 : ListenerId)) = 0)
    ∧ ((c8After CreateLoggingContext 5).listeners.countP
        (fun p => p.1 == (5 : ListenerId)) = 1
      ∧ ((5 : ListenerId), LogLevel.Info) ∈ (c8After CreateLoggingContext 5).listeners
      ∧ countDeliveries 5 ((CreateLoggingContext.Stream "s").1.1.dispatchLog
          (c8After CreateLoggingContext 5) plainFormat 0 [] LogLevel.Info
          false none "m" noArgs) = 1
      ∧ CreateLoggingContext.RemoveGlobalLogListener 5 = CreateLoggingContext) :=
  ⟨⟨by decide, by decide, by decide⟩,
   C8_idempotent_upsert plainFormat 0 [] CreateLoggingContext
     CreateLoggingContext (CreateLoggingContext.Stream "s").1.1 5 LogLevel.Info
     false none "m" noArgs (by decide) (by decide) (by decide)⟩

theorem mem_dispatch {α : Type} (ls : StreamState) (ctx : ContextState)
    (sprintf : String → List α → String) (ts : Nat)
    (genTrace : List StackTraceEntry) (level : LogLevel) (generateTrace : Bool)
    (setError : Option GoError) (format : String) (args : List α)
    (ll : ListenerId) (e : LogEntry)
    (h : (ll, e) ∈ ls.dispatchLog ctx sprintf ts genTrace level generateTrace
      setError format args) :
    e = { ts := ts
          stream := ls.name
          level := level
          message := if args.length > 0 then sprintf format args else format
          associatedError := setError
          stackTrace :=
            if ls.traces || ctx.traces || generateTrace then some genTrace
            else none } := by
  unfold StreamState.dispatchLog at h
  split at h
  · rw [List.mem_map] at h
    obtain ⟨x, _, hx⟩ := h
    injection hx with h1 h2
    exact h2.symm
  · simp at h

/-- Claim C9: every delivery made by stdLogStream.Error carries level Error,
the error text as its message and the error itself attached; every delivery
made by stdLogStream.Errorf with a nonempty argument list instead carries
the formatted text as its message while still attaching the error. -/
theorem C9_error_association {α : Type} (sprintf : String → List α → String)
    (ts : Nat) (genTrace : List StackTraceEntry) (ls : StreamState)
    (ctx : ContextState) (err : GoError) (format : String) (args : List α)
    (ll ll2 : ListenerId) (e e2 : LogEntry)
    (h1 : (ll, e) ∈ ls.Error ctx ts genTrace err)
    (h2 : args ≠ [])
    (h3 : (ll2, e2) ∈ ls.Errorf ctx sprintf ts genTrace err format args) :
    (e.Level = LogLevel.Error ∧ e.Message = err.Error
      ∧ e.HasAssociatedError = true ∧ e.AssociatedError = some err)
    ∧ (e2.Level = LogLevel.Error ∧ e2.Message = sprintf format args
      ∧ e2.HasAssociatedError = true ∧ e2.AssociatedError = some err) := by
  have he := mem_dispatch ls ctx plainFormat ts genTrace LogLevel.Error false
    (some err) err.Error noArgs ll e h1
  have he2 := mem_dispatch ls ctx sprintf ts genTrace LogLevel.Error false
    (some err) format args ll2 e2 h3
  have hlen : args.length > 0 := List.length_pos.mpr h2
  subst he
  subst he2
  refine ⟨⟨rfl, rfl, rfl, rfl⟩, ⟨rfl, ?_, rfl, rfl⟩⟩
  show (if args.length > 0 then sprintf format args else format)
    = sprintf format args
  rw [if_pos hlen]

/-- Concrete formatter used by the claim C9 witness. -/
def c9sprintf : String → List String → String :=
  fun f a => String.intercalate " " (f :: a)

def c9err : GoError := { id := 1, msg := "disk full" }

def c9ctx : ContextState := CreateLoggingContext.AddGlobalLogListener 3 LogLevel.Error

def c9svc : StreamState := (c9ctx.Stream "svc").1.1

def c9entryA : LogEntry :=
  { ts := 0, stream := "svc", level := LogLevel.Error, message := "disk full",
    associatedError := some c9err, stackTrace := none }

def c9entryB : LogEntry :=
  { ts := 0, stream := "svc", level := LogLevel.Error, message := "oops %s x",
    associatedError := some c9err, stackTrace := none }

/-- Witness for claim C9 at a concrete input: listener 3 at threshold Error
receives the Error and Errorf dispatches, whose entries carry the expected
message, level and attached error. -/
theorem C9_error_association_witness :
    (((3 : ListenerId), c9entryA) ∈ c9svc.Error c9ctx 0 [] c9err
      ∧ ["x"] ≠ ([] : List String)
      ∧ ((3 : ListenerId), c9entryB) ∈ c9svc.Errorf c9ctx c9sprintf 0 [] c9err
          "oops %s" ["x"])
    ∧ ((c9entryA.Level = LogLevel.Error ∧ c9entryA.Message = c9err.Error
        ∧ c9entryA.HasAssociatedError = true
        ∧ c9entryA.AssociatedError = some c9err)
      ∧ (c9entryB.Level = LogLevel.Error
        ∧ c9entryB.Message = c9sprintf "oops %s" ["x"]
        ∧ c9entryB.HasAssociatedError = true
        ∧ c9entryB.AssociatedError = some c9err)) :=
  ⟨⟨by decide, by decide, by decide⟩,
   C9_error_association c9sprintf 0 [] c9svc c9ctx c9err "oops %s" ["x"] 3 3
     c9entryA c9entryB (by decide) (by decide) (by decide)⟩

end GoLog
